import Mathlib

/-!
Verification development for the Drawdance canvas-state core.

The centrepiece of the embedding is src/libengine/dpengine/canvas_state.c:
the message dispatcher DP_canvas_state_handle and its per-message handlers,
together with the diff entry point DP_canvas_state_diff and the subimage
copy-region computation of DP_image_new_subimage (src/unnamed/part_002).

Value conventions of the embedding:
- C ints are modelled as Lean Int; wire-level unsigned 32-bit quantities
  (colors) as Nat. Where the source computes in a wider C type on purpose
  (the `long long` overflow guard in handle_region_move), the embedding
  applies an explicit signed 64-bit wrap.
- Reference-counted heap nodes are modelled as values. Pointer identity of
  a returned snapshot is modelled in the result type: HandleResult.same
  stands for DP_canvas_state_incref(cs) (the very same snapshot),
  HandleResult.persisted for DP_transient_canvas_state_persist of a fresh
  transient, HandleResult.fail for returning NULL with an error set.
- The lifecycle of the transient canvas state is recorded as an explicit
  event trace (allocation, persist, release), one event per corresponding
  call in the C handler branch, so that the release discipline of failed
  handlers is checkable.
- Collaborators whose C sources are not part of src/ (layer_list.c,
  layer.c, tile.c, canvas_diff.c, blend_mode.c, dpcommon/geom.h, the
  zlib codec) are modelled from the spec; each such definition carries a
  doc comment starting with `Modelled from the spec:`. Pixel-level effects
  of layer operations are recorded as explicit operation nodes
  (ContentOps) rather than interpreted, which is sufficient for the
  structural properties proved here.
-/

namespace Drawdance

/-- A tile value. In the C source tiles are reference-counted blocks created
from a solid BGRA color or from a compressed payload (tile.c, not in src/);
tile pointer comparison is modelled as structural equality of these values. -/
inductive Tile where
  | fromBgra (contextId : Int) (bgra : Nat)
  | fromCompressed (contextId : Int) (data : Nat)
deriving DecidableEq

/-- Payload of a PutTile or CanvasBackground message: either a solid color or
a compressed tile. The `decodes` flag carries the outcome of the external
zlib codec collaborator for the compressed case. -/
inductive TilePayload where
  | color (bgra : Nat)
  | compressed (decodes : Bool) (data : Nat)
deriving DecidableEq

/-- A compressed byte payload (image or mask) whose decoding is delegated to
the external codec collaborator; `decodes` carries that collaborator's
success or failure for this payload. -/
structure Payload where
  decodes : Bool
  data : Nat
deriving DecidableEq

/-- Modelled from the spec: DP_Rect of dpcommon/geom.h (not in src/), a
rectangle stored by its two inclusive corner points. -/
structure DP_Rect where
  x1 : Int
  y1 : Int
  x2 : Int
  y2 : Int
deriving DecidableEq

/-- Modelled from the spec: DP_Quad of dpcommon/geom.h (not in src/), four
corner points of a destination quad. -/
structure DP_Quad where
  x1 : Int
  y1 : Int
  x2 : Int
  y2 : Int
  x3 : Int
  y3 : Int
  x4 : Int
  y4 : Int
deriving DecidableEq

/-- Modelled from the spec: DP_rect_make(x, y, w, h) of dpcommon/geom.h. -/
def DP_rect_make (x y w h : Int) : DP_Rect :=
  { x1 := x, y1 := y, x2 := x + w - 1, y2 := y + h - 1 }

/-- Modelled from the spec: width of a DP_Rect (inclusive corners). -/
def DP_rect_width (r : DP_Rect) : Int := r.x2 - r.x1 + 1

/-- Modelled from the spec: height of a DP_Rect (inclusive corners). -/
def DP_rect_height (r : DP_Rect) : Int := r.y2 - r.y1 + 1

/-- Modelled from the spec: DP_rect_size, the area of the rectangle, used by
handle_region_move as the area of the destination quad bounding box. -/
def DP_rect_size (r : DP_Rect) : Int := DP_rect_width r * DP_rect_height r

/-- Modelled from the spec: DP_quad_bounds of dpcommon/geom.h, the bounding
rectangle of the four quad corners. -/
def DP_quad_bounds (q : DP_Quad) : DP_Rect :=
  { x1 := min (min q.x1 q.x2) (min q.x3 q.x4)
    y1 := min (min q.y1 q.y2) (min q.y3 q.y4)
    x2 := max (max q.x1 q.x2) (max q.x3 q.x4)
    y2 := max (max q.y1 q.y2) (max q.y3 q.y4) }

/-- Signed 64-bit wraparound, the value semantics of a C `long long`
computation. handle_region_move computes its overflow guard
`(canvas_width + 1LL) * (canvas_height + 1LL)` in this type. -/
def int64wrap (x : Int) : Int := (x + 2 ^ 63) % 2 ^ 64 - 2 ^ 63

/-- Modelled from the spec: blend_mode.c is not in src/. The spec requires a
finite set of known blend-mode enum values with a strict brush-compatible
subset, and names NORMAL and MULTIPLY; all other wire values (for example
255) are unknown and malformed. -/
def DP_BLEND_MODE_NORMAL : Int := 1

/-- Modelled from the spec: the MULTIPLY blend mode named by the spec. -/
def DP_BLEND_MODE_MULTIPLY : Int := 2

/-- Modelled from the spec: DP_blend_mode_exists of blend_mode.c (not in
src/). The known enum values are modelled as the range 0..2, with 0 a known
mode that is not applicable to brushes. -/
def DP_blend_mode_exists (b : Int) : Bool := decide (0 ≤ b ∧ b ≤ 2)

/-- Modelled from the spec: DP_blend_mode_valid_for_brush of blend_mode.c
(not in src/); the brush-compatible subset is a strict subset of the known
modes (mode 0 is known but not brush-compatible). -/
def DP_blend_mode_valid_for_brush (b : Int) : Bool :=
  DP_blend_mode_exists b && decide (b ≠ 0)

/-- Layer properties (layer.c / layer_list.c, declared in src/unnamed/part_001):
id, title, opacity, blend mode, visibility, censored and fixed flags. -/
structure LayerProps where
  id : Int
  title : String
  opacity : Int
  blendMode : Int
  visible : Bool
  censored : Bool
  fixed : Bool
deriving DecidableEq

/-- The three draw-dabs message types dispatched by DP_canvas_state_handle. -/
inductive DabsType where
  | classic
  | pixel
  | pixelSquare
deriving DecidableEq

/-- DP_PaintDrawDabsParams as assembled by handle_draw_dabs: message type,
context id, origin, color, the blend mode used for compositing the dabs,
dab count and the dab payload (kept opaque). The draw context pointer is
omitted. -/
structure PaintParams where
  msgType : DabsType
  contextId : Int
  originX : Int
  originY : Int
  color : Nat
  blendMode : Int
  dabCount : Nat
  dabs : List Nat
deriving DecidableEq

/-- Modelled from the spec: the pixel-level state of a layer content
(layer_content.c is not in src/, only its header src/unnamed/part_001).
Each transient write operation of the spec is recorded as an explicit node,
so that two contents are equal exactly when they were built by the same
operations; the actual pixel compositing is outside the claims proved here. -/
inductive ContentOps where
  | base (width height : Int) (fill : Option Tile)
  | putImage (c : ContentOps) (contextId blendMode x y width height : Int) (data : Nat)
  | fillRect (c : ContentOps) (contextId blendMode left top right bottom : Int) (color : Nat)
  | putTile (c : ContentOps) (tile : Tile) (sublayerId x y repeatCount : Int)
  | drawDabs (c : ContentOps) (params : PaintParams)
  | mergeSub (c : ContentOps) (contextId : Int) (subProps : LayerProps) (subContent : ContentOps)
  | regionMove (c : ContentOps) (contextId : Int) (srcRect : DP_Rect) (dstQuad : DP_Quad) (hasMask : Bool)
  | resized (c : ContentOps) (contextId top right bottom left : Int)
  | merged (c : ContentOps) (contextId : Int) (other : ContentOps)
deriving DecidableEq

/-- A sublayer: per the spec data model, a parallel (LayerProps,
LayerContent) pair inside a layer content, used for indirect drawing. -/
structure SubLayer where
  props : LayerProps
  content : ContentOps
deriving DecidableEq

/-- A layer of the layer list: its props, its content, and the ordered
sublayers of that content. -/
structure Layer where
  props : LayerProps
  content : ContentOps
  sublayers : List SubLayer
deriving DecidableEq

/-- DP_CanvasState: width, height, optional background tile, layer list.
The refcount and transient flag of the C struct are represented by the
handler result and trace types instead. `layersNull` is instrumentation for
the one code path (handle_layer_order) that can store a NULL layer-list
pointer into a persisted state; it is false everywhere else. -/
structure CanvasState where
  width : Int
  height : Int
  backgroundTile : Option Tile
  layers : List Layer
  layersNull : Bool
deriving DecidableEq

/-- DP_canvas_state_new: the empty zero-sized canvas with an empty layer
list and no background tile. -/
def DP_canvas_state_new : CanvasState :=
  { width := 0, height := 0, backgroundTile := none, layers := [], layersNull := false }

/-- The body of a drawing message, one constructor per message type handled
by DP_canvas_state_handle. -/
inductive MsgBody where
  | canvasResize (top right bottom left : Int)
  | layerCreate (layerId sourceId : Int) (fill : Nat) (insert copy : Bool) (title : String)
  | layerAttr (layerId sublayerId opacity blendMode : Int) (censored fixed : Bool)
  | layerOrder (layerIds : List Int)
  | layerRetitle (layerId : Int) (title : String)
  | layerDelete (layerId : Int) (merge : Bool)
  | layerVisibility (layerId : Int) (visible : Bool)
  | putImage (layerId blendMode x y width height : Int) (image : Payload)
  | fillRect (layerId blendMode x y width height : Int) (color : Nat)
  | regionMove (layerId srcX srcY srcWidth srcHeight : Int) (dstQuad : DP_Quad) (mask : Option Payload)
  | putTile (layerId sublayerId x y repeatCount : Int) (tile : TilePayload)
  | canvasBackground (tile : TilePayload)
  | penUp
  | drawDabsClassic (layerId blendMode originX originY : Int) (color : Nat) (indirect : Bool) (dabs : List Nat)
  | drawDabsPixel (layerId blendMode originX originY : Int) (color : Nat) (indirect : Bool) (dabs : List Nat)
  | drawDabsPixelSquare (layerId blendMode originX originY : Int) (color : Nat) (indirect : Bool) (dabs : List Nat)
  | unknown (msgType : Int)
deriving DecidableEq

/-- A drawing message: its context id (DP_message_context_id) and body. -/
structure Msg where
  contextId : Int
  body : MsgBody
deriving DecidableEq

/-- Result of DP_canvas_state_handle: a freshly persisted new snapshot, a
refcount-incremented reference to the input snapshot itself, or NULL with an
error set. -/
inductive HandleResult where
  | persisted (cs : CanvasState)
  | same
  | fail
deriving DecidableEq

/-- Lifecycle events of the transient canvas state inside one handler call:
DP_transient_canvas_state_new, DP_transient_canvas_state_persist,
DP_transient_canvas_state_decref. -/
inductive TEv where
  | alloc
  | persistT
  | decrefT
deriving DecidableEq

/-- The transient-canvas-state event trace of one handler call. -/
abbrev TransientTrace := List TEv

/-- Find the layer with the given id (first match in list order). -/
def getLayer (ll : List Layer) (layerId : Int) : Option Layer :=
  ll.find? (fun l => l.props.id == layerId)

/-- Modelled from the spec: the common routing step of the layer-list write
operations of layer_list.c (not in src/): apply `f` to the addressed layer,
failing when no layer has the given id. -/
def modifyLayer (f : Layer → Layer) (layerId : Int) : List Layer → Option (List Layer)
  | [] => none
  | l :: rest =>
    if l.props.id == layerId then some (f l :: rest)
    else (modifyLayer f layerId rest).map (fun r => l :: r)

/-- Find the sublayer with the given id inside a layer. -/
def findSub (l : Layer) (sublayerId : Int) : Option SubLayer :=
  l.sublayers.find? (fun s => s.props.id == sublayerId)

/-- Modelled from the spec: DP_layer_list_layer_reorder of layer_list.c (not
in src/): reorder to match the supplied permutation of existing ids; an
unknown id causes failure; layers not mentioned keep their relative order
after the mentioned ones. -/
def DP_layer_list_layer_reorder (ll : List Layer) (layerIds : List Int) : Option (List Layer) :=
  match layerIds.mapM (getLayer ll) with
  | none => none
  | some picked => some (picked ++ ll.filter (fun l => !(layerIds.contains l.props.id)))

/-- Modelled from the spec: insertion of a freshly created layer just above
its source layer, failing when the source id is absent. -/
def insertAbove (newL : Layer) (sourceId : Int) : List Layer → Option (List Layer)
  | [] => none
  | l :: rest =>
    if l.props.id == sourceId then some (l :: newL :: rest)
    else (insertAbove newL sourceId rest).map (fun r => l :: r)

/-- Modelled from the spec: DP_transient_layer_list_layer_create of
layer_list.c (not in src/): fails when the id already exists; with `copy`
the new layer duplicates the source content (failing when the source is
absent), otherwise it starts from a blank content optionally filled with the
given tile; with `insert` it is placed just above the source, else on top. -/
def DP_transient_layer_list_layer_create (ll : List Layer) (layerId sourceId : Int)
    (tile : Option Tile) (insert copy : Bool) (canvasWidth canvasHeight : Int)
    (title : String) : Option (List Layer) :=
  if ll.any (fun l => l.props.id == layerId) then none
  else
    let props : LayerProps :=
      { id := layerId, title := title, opacity := 255, blendMode := DP_BLEND_MODE_NORMAL,
        visible := true, censored := false, fixed := false }
    let contentO : Option ContentOps :=
      if copy then (getLayer ll sourceId).map (fun l => l.content)
      else some (ContentOps.base canvasWidth canvasHeight tile)
    match contentO with
    | none => none
    | some content =>
      let newL : Layer := { props := props, content := content, sublayers := [] }
      if insert then insertAbove newL sourceId ll else some (ll ++ [newL])

/-- Modelled from the spec: DP_transient_layer_list_layer_attr of
layer_list.c (not in src/): mutate the props of the addressed layer, or of
its addressed sublayer when sublayer_id is nonzero. -/
def DP_transient_layer_list_layer_attr (ll : List Layer) (layerId sublayerId opacity blendMode : Int)
    (censored fixed : Bool) : Option (List Layer) :=
  modifyLayer
    (fun l =>
      if sublayerId == 0 then
        { l with props := { l.props with opacity := opacity, blendMode := blendMode, censored := censored, fixed := fixed } }
      else
        { l with sublayers := l.sublayers.map (fun s =>
            if s.props.id == sublayerId then
              { s with props := { s.props with opacity := opacity, blendMode := blendMode, censored := censored, fixed := fixed } }
            else s) })
    layerId ll

/-- Modelled from the spec: DP_transient_layer_list_layer_retitle of
layer_list.c (not in src/). -/
def DP_transient_layer_list_layer_retitle (ll : List Layer) (layerId : Int)
    (title : String) : Option (List Layer) :=
  modifyLayer (fun l => { l with props := { l.props with title := title } }) layerId ll

/-- Modelled from the spec: DP_transient_layer_list_layer_visibility of
layer_list.c (not in src/). -/
def DP_transient_layer_list_layer_visibility (ll : List Layer) (layerId : Int)
    (visible : Bool) : Option (List Layer) :=
  modifyLayer (fun l => { l with props := { l.props with visible := visible } }) layerId ll

/-- Modelled from the spec: DP_transient_layer_list_layer_delete of
layer_list.c (not in src/): with `merge` the deleted content is merged into
the layer immediately below (failing when there is none), else dropped. -/
def DP_transient_layer_list_layer_delete (ll : List Layer) (contextId layerId : Int)
    (merge : Bool) : Option (List Layer) :=
  match ll.findIdx? (fun l => l.props.id == layerId) with
  | none => none
  | some i =>
    if merge then
      if i = 0 then none
      else
        match ll.get? i, ll.get? (i - 1) with
        | some l, some b =>
          some (ll.take (i - 1)
            ++ ({ b with content := ContentOps.merged b.content contextId l.content }
                :: ll.drop (i + 1)))
        | _, _ => none
    else some (ll.take i ++ ll.drop (i + 1))

/-- Modelled from the spec: DP_transient_layer_list_put_image of
layer_list.c (not in src/): decode the compressed image via the codec
collaborator (failing on a corrupt payload), then stamp it into the
addressed layer. -/
def DP_transient_layer_list_put_image (ll : List Layer) (contextId layerId blendMode x y width height : Int)
    (image : Payload) : Option (List Layer) :=
  if image.decodes = false then none
  else
    modifyLayer
      (fun l => { l with content := ContentOps.putImage l.content contextId blendMode x y width height image.data })
      layerId ll

/-- Modelled from the spec: DP_transient_layer_list_fill_rect of
layer_list.c (not in src/): fill the clipped rectangle on the addressed
layer. -/
def DP_transient_layer_list_fill_rect (ll : List Layer) (contextId layerId blendMode left top right bottom : Int)
    (color : Nat) : Option (List Layer) :=
  modifyLayer
    (fun l => { l with content := ContentOps.fillRect l.content contextId blendMode left top right bottom color })
    layerId ll

/-- Modelled from the spec: DP_transient_layer_list_put_tile of layer_list.c
(not in src/). -/
def DP_transient_layer_list_put_tile (ll : List Layer) (tile : Tile) (layerId sublayerId x y repeatCount : Int) :
    Option (List Layer) :=
  modifyLayer
    (fun l => { l with content := ContentOps.putTile l.content tile sublayerId x y repeatCount })
    layerId ll

/-- Modelled from the spec: DP_transient_layer_list_region_move of
layer_list.c (not in src/). -/
def DP_transient_layer_list_region_move (ll : List Layer) (contextId layerId : Int)
    (srcRect : DP_Rect) (dstQuad : DP_Quad) (mask : Option Nat) : Option (List Layer) :=
  modifyLayer
    (fun l => { l with content := ContentOps.regionMove l.content contextId srcRect dstQuad mask.isSome })
    layerId ll

/-- Modelled from the spec: the per-stroke sublayer update of layer.c (not in
src/) used by draw_dabs in indirect mode: get or create the sublayer with the
given id, set its opacity and blend mode to the given values, and composite
the dabs into its content. -/
def applySub (sublayerId sublayerBlendMode sublayerOpacity : Int) (params : PaintParams) :
    List SubLayer → List SubLayer
  | [] =>
    [{ props := { id := sublayerId, title := "", opacity := sublayerOpacity,
                  blendMode := sublayerBlendMode, visible := true, censored := false,
                  fixed := false },
       content := ContentOps.drawDabs (ContentOps.base 0 0 none) params }]
  | s :: rest =>
    if s.props.id == sublayerId then
      { props := { s.props with opacity := sublayerOpacity, blendMode := sublayerBlendMode },
        content := ContentOps.drawDabs s.content params } :: rest
    else s :: applySub sublayerId sublayerBlendMode sublayerOpacity params rest

/-- Modelled from the spec: the draw-dabs write on one layer (layer.c, not in
src/): with sublayer id 0 the dabs composite directly into the layer content;
otherwise they accumulate in the sublayer keyed by that id. -/
def recordDabs (sublayerId sublayerBlendMode sublayerOpacity : Int) (params : PaintParams)
    (l : Layer) : Layer :=
  if sublayerId == 0 then { l with content := ContentOps.drawDabs l.content params }
  else { l with sublayers := applySub sublayerId sublayerBlendMode sublayerOpacity params l.sublayers }

/-- Modelled from the spec: DP_transient_layer_list_draw_dabs of layer_list.c
(not in src/): route to the addressed layer, failing when it is absent. -/
def DP_transient_layer_list_draw_dabs (ll : List Layer) (layerId sublayerId sublayerBlendMode sublayerOpacity : Int)
    (params : PaintParams) : Option (List Layer) :=
  modifyLayer (recordDabs sublayerId sublayerBlendMode sublayerOpacity params) layerId ll

/-- Modelled from the spec: DP_transient_layer_list_resize of layer_list.c
(not in src/): resize-copy every layer (and its sublayers) into the new
dimensions; this operation cannot fail. -/
def DP_transient_layer_list_resize (ll : List Layer) (contextId top right bottom left : Int) :
    List Layer :=
  ll.map (fun l =>
    { l with
      content := ContentOps.resized l.content contextId top right bottom left,
      sublayers := l.sublayers.map (fun s =>
        { s with content := ContentOps.resized s.content contextId top right bottom left }) })

/-- DP_tile_new_from_bgra or DP_tile_new_from_compressed as selected by the
payload of a PutTile or CanvasBackground message; the compressed form fails
when the codec collaborator rejects the payload (tile.c is not in src/, the
selection logic is in canvas_state.c). -/
def tileFromPayload (contextId : Int) : TilePayload → Option Tile
  | TilePayload.color bgra => some (Tile.fromBgra contextId bgra)
  | TilePayload.compressed decodes data =>
    if decodes then some (Tile.fromCompressed contextId data) else none

/-- DP_image_new_from_compressed_monochrome applied to the optional region
move mask (src/unnamed/part_002): no mask decodes to nothing, a corrupt mask
fails the handler, a valid mask yields the decoded mask. The bit extraction
itself is in src; the inflate step is the codec collaborator, whose outcome
the payload carries. -/
def region_move_decode_mask : Option Payload → Option (Option Nat)
  | none => some none
  | some p => if p.decodes then some (some p.data) else none

/-- Whether a layer holds a sublayer with the given id; this is the condition
on which the inner loop of handle_pen_up (canvas_state.c) finds work in a
layer. -/
def layerHasSublayer (sublayerId : Int) (l : Layer) : Bool :=
  l.sublayers.any (fun s => s.props.id == sublayerId)

/-- The inner j-loop of handle_pen_up on one layer: every sublayer whose id
matches is merged into the layer content (DP_transient_layer_merge_sublayer_at,
layer.c not in src/, modelled from the spec as removing the sublayer and
compositing its content into the parent) and removed from the sublayer list;
the loop index adjustment after removal makes this a single left-to-right
pass. -/
def mergeSubsGo (contextId : Int) (content : ContentOps) :
    List SubLayer → ContentOps × List SubLayer
  | [] => (content, [])
  | s :: rest =>
    if s.props.id == contextId then
      mergeSubsGo contextId (ContentOps.mergeSub content contextId s.props s.content) rest
    else
      let r := mergeSubsGo contextId content rest
      (r.1, s :: r.2)

/-- One layer after the inner loop of handle_pen_up merged away all its
matching sublayers. -/
def mergeMatchingSublayers (contextId : Int) (l : Layer) : Layer :=
  let r := mergeSubsGo contextId l.content l.sublayers
  { l with content := r.1, sublayers := r.2 }

/-- A layer as handle_pen_up processes it when the transient canvas state
already exists: merged when its sublayers match, untouched otherwise. -/
def mergeLayerIfMatch (contextId : Int) (l : Layer) : Layer :=
  if layerHasSublayer contextId l then mergeMatchingSublayers contextId l else l

/-- The outer loop of handle_pen_up (canvas_state.c lines 499..541). The
local variable ll is initialised to cs->layers and never reassigned: the
branch for an already-transient canvas state executes the no-op
`ll = (DP_LayerList *)ll;` instead of pointing ll at the transient copy.
Consequently only the FIRST layer in which a matching sublayer is found is
merged inside the transient copy that gets persisted; for every later
matching layer the code casts the still-immutable original list to
transient and merges in place there, mutating the input snapshot's list.
The result pair is (layer list of the persisted transient, layer list that
the input snapshot's pointer now reaches); `none` means no matching sublayer
was found anywhere and no transient was created. -/
def pen_up_scan (contextId : Int) : List Layer → Option (List Layer × List Layer)
  | [] => none
  | l :: rest =>
    if layerHasSublayer contextId l then
      some (mergeMatchingSublayers contextId l :: rest,
            l :: rest.map (mergeLayerIfMatch contextId))
    else
      match pen_up_scan contextId rest with
      | some r => some (l :: r.1, l :: r.2)
      | none => none

/-- handle_pen_up: lazy merge of all sublayers keyed by the context id. The
first component is the handler result with its transient trace; the second
component is the layer list reachable from the input snapshot after the
call (which the aliasing slip described at pen_up_scan can mutate). -/
def handle_pen_up (cs : CanvasState) (contextId : Int) :
    (HandleResult × TransientTrace) × List Layer :=
  match pen_up_scan contextId cs.layers with
  | none => ((HandleResult.same, []), cs.layers)
  | some r =>
    ((HandleResult.persisted { cs with layers := r.1 }, [TEv.alloc, TEv.persistT]), r.2)

/-- DP_transient_canvas_state_resize (canvas_state.c lines 823..857): border
inversion check, then the 1..INT16_MAX dimension check, then the dimension
update and the resize-copy of a nonempty layer list. -/
def DP_transient_canvas_state_resize (tcs : CanvasState) (contextId top right bottom left : Int) :
    Option CanvasState :=
  let north := -top
  let west := -left
  let east := tcs.width + right
  let south := tcs.height + bottom
  if north ≥ south ∨ west ≥ east then none
  else
    let width := east + left
    let height := south + top
    if width < 1 ∨ height < 1 ∨ width > 32767 ∨ height > 32767 then none
    else
      some { tcs with
        width := width, height := height,
        layers :=
          if 0 < tcs.layers.length then
            DP_transient_layer_list_resize tcs.layers contextId top right bottom left
          else tcs.layers }

/-- handle_canvas_resize: clone a transient, resize it, persist on success,
release on failure. -/
def handle_canvas_resize (cs : CanvasState) (contextId top right bottom left : Int) :
    HandleResult × TransientTrace :=
  match DP_transient_canvas_state_resize cs contextId top right bottom left with
  | some tcs => (HandleResult.persisted tcs, [TEv.alloc, TEv.persistT])
  | none => (HandleResult.fail, [TEv.alloc, TEv.decrefT])

/-- handle_layer_create: build the optional fill tile, delegate to the layer
list, persist on success, release on failure. -/
def handle_layer_create (cs : CanvasState) (contextId : Int) (layerId sourceId : Int)
    (fill : Nat) (insert copy : Bool) (title : String) : HandleResult × TransientTrace :=
  let tile := if fill == 0 then none else some (Tile.fromBgra contextId fill)
  match DP_transient_layer_list_layer_create cs.layers layerId sourceId tile insert copy
      cs.width cs.height title with
  | some ll => (HandleResult.persisted { cs with layers := ll }, [TEv.alloc, TEv.persistT])
  | none => (HandleResult.fail, [TEv.alloc, TEv.decrefT])

/-- handle_layer_attr. -/
def handle_layer_attr (cs : CanvasState) (layerId sublayerId opacity blendMode : Int)
    (censored fixed : Bool) : HandleResult × TransientTrace :=
  match DP_transient_layer_list_layer_attr cs.layers layerId sublayerId opacity blendMode
      censored fixed with
  | some ll => (HandleResult.persisted { cs with layers := ll }, [TEv.alloc, TEv.persistT])
  | none => (HandleResult.fail, [TEv.alloc, TEv.decrefT])

/-- handle_layer_order (canvas_state.c lines 231..241): the reorder result is
assigned to the transient layer list and the transient is persisted
UNCONDITIONALLY; there is no failure check, so when the reorder fails the
persisted snapshot holds a NULL layer list, modelled by layersNull. -/
def handle_layer_order (cs : CanvasState) (layerIds : List Int) : HandleResult × TransientTrace :=
  match DP_layer_list_layer_reorder cs.layers layerIds with
  | some ll => (HandleResult.persisted { cs with layers := ll }, [TEv.alloc, TEv.persistT])
  | none =>
    (HandleResult.persisted { cs with layers := [], layersNull := true },
     [TEv.alloc, TEv.persistT])

/-- handle_layer_retitle. -/
def handle_layer_retitle (cs : CanvasState) (layerId : Int) (title : String) :
    HandleResult × TransientTrace :=
  match DP_transient_layer_list_layer_retitle cs.layers layerId title with
  | some ll => (HandleResult.persisted { cs with layers := ll }, [TEv.alloc, TEv.persistT])
  | none => (HandleResult.fail, [TEv.alloc, TEv.decrefT])

/-- handle_layer_delete. -/
def handle_layer_delete (cs : CanvasState) (contextId : Int) (layerId : Int) (merge : Bool) :
    HandleResult × TransientTrace :=
  match DP_transient_layer_list_layer_delete cs.layers contextId layerId merge with
  | some ll => (HandleResult.persisted { cs with layers := ll }, [TEv.alloc, TEv.persistT])
  | none => (HandleResult.fail, [TEv.alloc, TEv.decrefT])

/-- handle_layer_visibility. -/
def handle_layer_visibility (cs : CanvasState) (layerId : Int) (visible : Bool) :
    HandleResult × TransientTrace :=
  match DP_transient_layer_list_layer_visibility cs.layers layerId visible with
  | some ll => (HandleResult.persisted { cs with layers := ll }, [TEv.alloc, TEv.persistT])
  | none => (HandleResult.fail, [TEv.alloc, TEv.decrefT])

/-- handle_put_image: the blend-mode existence check precedes the transient
clone; the image decode happens inside the layer-list call. -/
def handle_put_image (cs : CanvasState) (contextId : Int) (layerId blendMode x y width height : Int)
    (image : Payload) : HandleResult × TransientTrace :=
  if DP_blend_mode_exists blendMode = false then (HandleResult.fail, [])
  else
    match DP_transient_layer_list_put_image cs.layers contextId layerId blendMode x y width height image with
    | some ll => (HandleResult.persisted { cs with layers := ll }, [TEv.alloc, TEv.persistT])
    | none => (HandleResult.fail, [TEv.alloc, TEv.decrefT])

/-- handle_fill_rect (canvas_state.c lines 329..370): blend-mode existence
and brush validity checks, clipping of the rectangle against the canvas,
emptiness check, then the layer-list fill. All three early failures happen
before the transient clone is created. -/
def handle_fill_rect (cs : CanvasState) (contextId : Int) (layerId blendMode x y width height : Int)
    (color : Nat) : HandleResult × TransientTrace :=
  if DP_blend_mode_exists blendMode = false then (HandleResult.fail, [])
  else if DP_blend_mode_valid_for_brush blendMode = false then (HandleResult.fail, [])
  else
    let left := max x 0
    let top := max y 0
    let right := min (x + width) cs.width
    let bottom := min (y + height) cs.height
    if left ≥ right ∨ top ≥ bottom then (HandleResult.fail, [])
    else
      match DP_transient_layer_list_fill_rect cs.layers contextId layerId blendMode left top right bottom color with
      | some ll => (HandleResult.persisted { cs with layers := ll }, [TEv.alloc, TEv.persistT])
      | none => (HandleResult.fail, [TEv.alloc, TEv.decrefT])

/-- handle_region_move (canvas_state.c lines 372..425): empty-selection
check, mask decode, then the overflow-guarded bound check of the destination
quad against (canvas_width + 1LL) * (canvas_height + 1LL), all before the
transient clone. -/
def handle_region_move (cs : CanvasState) (contextId : Int) (layerId srcX srcY srcWidth srcHeight : Int)
    (dstQuad : DP_Quad) (mask : Option Payload) : HandleResult × TransientTrace :=
  if srcWidth ≤ 0 ∨ srcHeight ≤ 0 then (HandleResult.fail, [])
  else
    match region_move_decode_mask mask with
    | none => (HandleResult.fail, [])
    | some m =>
      let maxSize := int64wrap ((cs.width + 1) * (cs.height + 1))
      if DP_rect_size (DP_quad_bounds dstQuad) > maxSize then (HandleResult.fail, [])
      else
        match DP_transient_layer_list_region_move cs.layers contextId layerId
            (DP_rect_make srcX srcY srcWidth srcHeight) dstQuad m with
        | some ll => (HandleResult.persisted { cs with layers := ll }, [TEv.alloc, TEv.persistT])
        | none => (HandleResult.fail, [TEv.alloc, TEv.decrefT])

/-- handle_put_tile: tile construction from the payload precedes the
transient clone; a corrupt compressed payload fails without a transient. -/
def handle_put_tile (cs : CanvasState) (contextId : Int) (layerId sublayerId x y repeatCount : Int)
    (tile : TilePayload) : HandleResult × TransientTrace :=
  match tileFromPayload contextId tile with
  | none => (HandleResult.fail, [])
  | some t =>
    match DP_transient_layer_list_put_tile cs.layers t layerId sublayerId x y repeatCount with
    | some ll => (HandleResult.persisted { cs with layers := ll }, [TEv.alloc, TEv.persistT])
    | none => (HandleResult.fail, [TEv.alloc, TEv.decrefT])

/-- handle_canvas_background: tile construction from the payload, then the
background tile of the transient is replaced and the transient persisted. -/
def handle_canvas_background (cs : CanvasState) (contextId : Int) (tile : TilePayload) :
    HandleResult × TransientTrace :=
  match tileFromPayload contextId tile with
  | none => (HandleResult.fail, [])
  | some t =>
    (HandleResult.persisted { cs with backgroundTile := some t }, [TEv.alloc, TEv.persistT])

/-- The sublayer parameter selection of handle_draw_dabs (canvas_state.c
lines 585..598), in the declaration order of the C locals: (sublayer_id,
sublayer_opacity, sublayer_blend_mode, dabs_blend_mode). In indirect mode
the sublayer is keyed by the context id, its opacity is the top byte of the
dab color, its blend mode is the requested one and the dabs composite with
NORMAL; in direct mode there is no sublayer and the dabs composite with the
requested blend mode. -/
def draw_dabs_sublayer_params (indirect : Bool) (contextId : Int) (color : Nat) (blendMode : Int) :
    Int × Int × Int × Int :=
  if indirect then
    (contextId, Int.ofNat ((color &&& 0xff000000) >>> 24), blendMode, DP_BLEND_MODE_NORMAL)
  else
    (0, -1, -1, blendMode)

/-- handle_draw_dabs (canvas_state.c lines 563..623): blend-mode checks,
then the zero-dab fast path returning a refcount-incremented reference to
the input snapshot, then the sublayer parameter selection and the layer-list
draw call on a fresh transient. -/
def handle_draw_dabs (cs : CanvasState) (msgType : DabsType) (contextId : Int)
    (layerId blendMode originX originY : Int) (color : Nat) (indirect : Bool)
    (dabs : List Nat) : HandleResult × TransientTrace :=
  if DP_blend_mode_exists blendMode = false then (HandleResult.fail, [])
  else if DP_blend_mode_valid_for_brush blendMode = false then (HandleResult.fail, [])
  else if dabs.length < 1 then (HandleResult.same, [])
  else
    let p := draw_dabs_sublayer_params indirect contextId color blendMode
    let params : PaintParams :=
      { msgType := msgType, contextId := contextId, originX := originX, originY := originY,
        color := color, blendMode := p.2.2.2, dabCount := dabs.length, dabs := dabs }
    match DP_transient_layer_list_draw_dabs cs.layers layerId p.1 p.2.2.1 p.2.1 params with
    | some ll => (HandleResult.persisted { cs with layers := ll }, [TEv.alloc, TEv.persistT])
    | none => (HandleResult.fail, [TEv.alloc, TEv.decrefT])

/-- DP_canvas_state_handle (canvas_state.c lines 625..680): dispatch on the
message type; an unhandled type fails. -/
def DP_canvas_state_handle (cs : CanvasState) (m : Msg) : HandleResult × TransientTrace :=
  match m.body with
  | MsgBody.canvasResize top right bottom left =>
    handle_canvas_resize cs m.contextId top right bottom left
  | MsgBody.layerCreate layerId sourceId fill insert copy title =>
    handle_layer_create cs m.contextId layerId sourceId fill insert copy title
  | MsgBody.layerAttr layerId sublayerId opacity blendMode censored fixed =>
    handle_layer_attr cs layerId sublayerId opacity blendMode censored fixed
  | MsgBody.layerOrder layerIds => handle_layer_order cs layerIds
  | MsgBody.layerRetitle layerId title => handle_layer_retitle cs layerId title
  | MsgBody.layerDelete layerId merge => handle_layer_delete cs m.contextId layerId merge
  | MsgBody.layerVisibility layerId visible => handle_layer_visibility cs layerId visible
  | MsgBody.putImage layerId blendMode x y width height image =>
    handle_put_image cs m.contextId layerId blendMode x y width height image
  | MsgBody.fillRect layerId blendMode x y width height color =>
    handle_fill_rect cs m.contextId layerId blendMode x y width height color
  | MsgBody.regionMove layerId srcX srcY srcWidth srcHeight dstQuad mask =>
    handle_region_move cs m.contextId layerId srcX srcY srcWidth srcHeight dstQuad mask
  | MsgBody.putTile layerId sublayerId x y repeatCount tile =>
    handle_put_tile cs m.contextId layerId sublayerId x y repeatCount tile
  | MsgBody.canvasBackground tile => handle_canvas_background cs m.contextId tile
  | MsgBody.penUp => (handle_pen_up cs m.contextId).1
  | MsgBody.drawDabsClassic layerId blendMode originX originY color indirect dabs =>
    handle_draw_dabs cs DabsType.classic m.contextId layerId blendMode originX originY color indirect dabs
  | MsgBody.drawDabsPixel layerId blendMode originX originY color indirect dabs =>
    handle_draw_dabs cs DabsType.pixel m.contextId layerId blendMode originX originY color indirect dabs
  | MsgBody.drawDabsPixelSquare layerId blendMode originX originY color indirect dabs =>
    handle_draw_dabs cs DabsType.pixelSquare m.contextId layerId blendMode originX originY color indirect dabs
  | MsgBody.unknown _ => (HandleResult.fail, [])

/-- DP_min_int of dpcommon (conversions of canvas_state.c and image.c). -/
def DP_min_int (a b : Int) : Int := min a b

/-- DP_max_int of dpcommon. -/
def DP_max_int (a b : Int) : Int := max a b

/-- The copy region computed by DP_image_new_subimage
(src/unnamed/part_002 lines 231..246) for a source image of the given
dimensions and a requested rectangle (x, y, width, height). -/
structure SubimageArgs where
  dstX : Int
  dstY : Int
  srcX : Int
  srcY : Int
  copyWidth : Int
  copyHeight : Int
deriving DecidableEq

/-- The copy-region computation of DP_image_new_subimage: destination offsets
clamp a negative request origin, source offsets clamp a positive one, and
the copy extent is the minimum of what remains of the requested rectangle
and of the source image. -/
def DP_image_new_subimage_args (imgWidth imgHeight x y width height : Int) : SubimageArgs :=
  let dstX := if x < 0 then -x else 0
  let dstY := if y < 0 then -y else 0
  let srcX := if x > 0 then x else 0
  let srcY := if y > 0 then y else 0
  { dstX := dstX, dstY := dstY, srcX := srcX, srcY := srcY,
    copyWidth := DP_min_int (width - dstX) (imgWidth - srcX),
    copyHeight := DP_min_int (height - dstY) (imgHeight - srcY) }

/-- The DP_ASSERT preconditions of copy_pixels (src/unnamed/part_002 lines
203..229) on a destination of the given dimensions (the fresh subimage) and
a source of the given dimensions: nonnegative offsets and extents, and a
copy region inside both images. -/
def copy_pixels_asserts (dstWidth dstHeight srcWidth srcHeight : Int) (a : SubimageArgs) : Prop :=
  0 ≤ a.dstX ∧ 0 ≤ a.dstY ∧ 0 ≤ a.srcX ∧ 0 ≤ a.srcY ∧
  0 ≤ a.copyWidth ∧ 0 ≤ a.copyHeight ∧
  a.dstX + a.copyWidth ≤ dstWidth ∧ a.srcX + a.copyWidth ≤ srcWidth ∧
  a.dstY + a.copyHeight ≤ dstHeight ∧ a.srcY + a.copyHeight ≤ srcHeight

instance (dw dh sw sh : Int) (a : SubimageArgs) : Decidable (copy_pixels_asserts dw dh sw sh a) := by
  unfold copy_pixels_asserts
  infer_instance

/-- Default layer props used by the concrete example states below. -/
def simpleProps (layerId : Int) : LayerProps :=
  { id := layerId, title := "", opacity := 255, blendMode := DP_BLEND_MODE_NORMAL,
    visible := true, censored := false, fixed := false }

/-- A plain layer with the given id, a blank content and no sublayers. -/
def simpleLayer (layerId : Int) : Layer :=
  { props := simpleProps layerId, content := ContentOps.base 0 0 none, sublayers := [] }

/-- A message that fails before any transient is created: FillRect with the
unknown blend mode 255. -/
def c1FailMsg : Msg := { contextId := 1, body := MsgBody.fillRect 1 255 0 0 10 10 0 }

/-- A PenUp message on a canvas without sublayers: the no-op fast path. -/
def c1NoopMsg : Msg := { contextId := 1, body := MsgBody.penUp }

/-- A 100 by 100 canvas with an empty layer list. -/
def c2State : CanvasState :=
  { width := 100, height := 100, backgroundTile := none, layers := [], layersNull := false }

/-- A sublayer keyed by context id 7, as indirect drawing leaves it behind. -/
def c7Sub : SubLayer := { props := simpleProps 7, content := ContentOps.base 0 0 none }

/-- A layer with the given id carrying the context-7 sublayer. -/
def c7Layer (layerId : Int) : Layer :=
  { props := simpleProps layerId, content := ContentOps.base 0 0 none, sublayers := [c7Sub] }

/-- A canvas in which TWO distinct layers carry a sublayer keyed by context
id 7; this is the shape on which the pen-up aliasing slip strikes. -/
def c7State : CanvasState :=
  { width := 100, height := 100, backgroundTile := none,
    layers := [c7Layer 1, c7Layer 2], layersNull := false }

/-- PenUp for context id 7. -/
def c7Msg : Msg := { contextId := 7, body := MsgBody.penUp }

/-- A canvas with layers 1 and 2, used against a LayerOrder naming the
unknown layer id 3. -/
def c9State : CanvasState :=
  { width := 100, height := 100, backgroundTile := none,
    layers := [simpleLayer 1, simpleLayer 2], layersNull := false }

/-- C10: the copy region DP_image_new_subimage computes for a requested
rectangle that lies entirely beyond the right edge of a 10 by 10 source
image has copy_width = min(5, 10 - 100) = -90, so the DP_ASSERT
preconditions of copy_pixels are violated; the claim that the asserted
preconditions hold for every nonnegative request, including rectangles
entirely outside the source, is false on the code. -/
theorem subimage_outside_breaks_copy_pixels_asserts :
    ¬ copy_pixels_asserts 5 5 10 10 (DP_image_new_subimage_args 10 10 100 0 5 5) := by
  decide

/-- C9: on a canvas with layers 1 and 2, a LayerOrder message naming the
unknown layer id 3 makes the spec-modelled reorder fail, yet
handle_layer_order checks nothing and persists a snapshot whose layer list
is the NULL reorder result; the handler does not return a failure as the
claim (and the sibling handlers) require. -/
theorem layer_order_unknown_id_persists_invalid :
    DP_layer_list_layer_reorder c9State.layers [3] = none ∧
    (DP_canvas_state_handle c9State { contextId := 1, body := MsgBody.layerOrder [3] }).1
      = HandleResult.persisted { c9State with layers := [], layersNull := true } ∧
    (DP_canvas_state_handle c9State { contextId := 1, body := MsgBody.layerOrder [3] }).1
      ≠ HandleResult.fail := by
  decide

/-- C7: on a canvas where layers 1 and 2 each carry a sublayer keyed by
context id 7, the first PenUp(7) persists a snapshot that still contains a
matching sublayer (only the first layer was merged into the persisted copy,
because the handler never redirects its list variable to the transient
copy), the input snapshot's layer list is mutated through the bogus
transient cast, and a second PenUp(7) is neither the no-op fast path nor a
persist of an equal snapshot: applying PenUp twice is not equivalent to
applying it once. -/
theorem pen_up_second_application_not_noop :
    (match (DP_canvas_state_handle c7State c7Msg).1 with
     | HandleResult.persisted c1 => c1.layers.any (layerHasSublayer 7)
     | _ => false) = true ∧
    (match (DP_canvas_state_handle c7State c7Msg).1 with
     | HandleResult.persisted c1 =>
       decide ((DP_canvas_state_handle c1 c7Msg).1 = HandleResult.same
         ∨ (DP_canvas_state_handle c1 c7Msg).1 = HandleResult.persisted c1)
     | _ => true) = false ∧
    (handle_pen_up c7State 7).2 ≠ c7State.layers := by
  decide

/-- C1 counterexample: PenUp on a canvas with no matching sublayer returns a
refcount-incremented reference to the very same snapshot, which is neither a
freshly persisted new snapshot nor a failure, so the dichotomy of the claim
as stated is false on the code. -/
theorem handle_pen_up_noop_not_fresh_counterexample :
    (DP_canvas_state_handle DP_canvas_state_new c1NoopMsg).1 = HandleResult.same ∧
    HandleResult.same ≠ HandleResult.fail := by
  decide

/-- C5 counterexample: a DrawDabsClassic message with zero dabs but the
unknown blend mode 255 is rejected by the blend-mode check, which precedes
the zero-dab fast path, so handling it returns a failure rather than the
same snapshot; the claim as stated (every zero-dab draw-dabs message is a
no-op returning the same snapshot) is false on the code. -/
theorem draw_dabs_zero_dabs_unknown_blend_counterexample :
    (DP_canvas_state_handle DP_canvas_state_new
        { contextId := 1, body := MsgBody.drawDabsClassic 1 255 0 0 0 false [] }).1
      = HandleResult.fail ∧
    HandleResult.fail ≠ HandleResult.same := by
  decide

/-- C5 (amended): a draw-dabs message of any of the three kinds whose dab
count is zero and whose blend mode passes the existence and brush checks is
a no-op: the handler returns a refcount-incremented reference to the same
snapshot (HandleResult.same), not a copy. -/
theorem draw_dabs_zero_dabs_noop (cs : CanvasState) (ctx layerId blendMode originX originY : Int)
    (color : Nat) (indirect : Bool)
    (hbe : DP_blend_mode_exists blendMode = true)
    (hbv : DP_blend_mode_valid_for_brush blendMode = true) :
    (DP_canvas_state_handle cs
        { contextId := ctx, body := MsgBody.drawDabsClassic layerId blendMode originX originY color indirect [] }).1
      = HandleResult.same ∧
    (DP_canvas_state_handle cs
        { contextId := ctx, body := MsgBody.drawDabsPixel layerId blendMode originX originY color indirect [] }).1
      = HandleResult.same ∧
    (DP_canvas_state_handle cs
        { contextId := ctx, body := MsgBody.drawDabsPixelSquare layerId blendMode originX originY color indirect [] }).1
      = HandleResult.same := by
  refine ⟨?_, ?_, ?_⟩ <;> simp [DP_canvas_state_handle, handle_draw_dabs, hbe, hbv]

/-- C5 witness: the amended theorem applied to the empty canvas and the
brush-compatible NORMAL blend mode. -/
theorem draw_dabs_zero_dabs_noop_witness :
    (DP_blend_mode_exists 1 = true ∧ DP_blend_mode_valid_for_brush 1 = true) ∧
    ((DP_canvas_state_handle DP_canvas_state_new
        { contextId := 1, body := MsgBody.drawDabsClassic 1 1 0 0 0 false [] }).1
      = HandleResult.same ∧
    (DP_canvas_state_handle DP_canvas_state_new
        { contextId := 1, body := MsgBody.drawDabsPixel 1 1 0 0 0 false [] }).1
      = HandleResult.same ∧
    (DP_canvas_state_handle DP_canvas_state_new
        { contextId := 1, body := MsgBody.drawDabsPixelSquare 1 1 0 0 0 false [] }).1
      = HandleResult.same) :=
  ⟨⟨by decide, by decide⟩,
   draw_dabs_zero_dabs_noop DP_canvas_state_new 1 1 1 0 0 0 false (by decide) (by decide)⟩

theorem resize_none_iff (cs : CanvasState) (ctx top right bottom left : Int) :
    DP_transient_canvas_state_resize cs ctx top right bottom left = none ↔
      (cs.width + left + right < 1 ∨ 32767 < cs.width + left + right
        ∨ cs.height + top + bottom < 1 ∨ 32767 < cs.height + top + bottom
        ∨ -top ≥ cs.height + bottom ∨ -left ≥ cs.width + right) := by
  unfold DP_transient_canvas_state_resize
  split_ifs <;> simp <;> omega

theorem resize_some_fields (cs : CanvasState) (ctx top right bottom left : Int) (cs2 : CanvasState) :
    DP_transient_canvas_state_resize cs ctx top right bottom left = some cs2 →
    cs2.width = cs.width + left + right ∧ cs2.height = cs.height + top + bottom ∧
      cs2.backgroundTile = cs.backgroundTile := by
  intro h
  simp only [DP_transient_canvas_state_resize] at h
  split_ifs at h
  all_goals
    first
      | exact Option.noConfusion h
      | (simp only [Option.some.injEq] at h
         subst h
         refine ⟨?_, ?_, ?_⟩ <;> simp <;> try omega)

/-- C2: handling CanvasResize(top, right, bottom, left) fails exactly when
the new width or height (width + left + right, height + top + bottom) falls
outside 1..32767 or the borders invert (north at or beyond south, west at or
beyond east), and a successful resize produces a snapshot with exactly the
new dimensions and the background tile retained. -/
theorem canvas_resize_bounds_and_background (cs : CanvasState) (ctx top right bottom left : Int) :
    ((DP_canvas_state_handle cs
        { contextId := ctx, body := MsgBody.canvasResize top right bottom left }).1
      = HandleResult.fail
      ↔ (cs.width + left + right < 1 ∨ 32767 < cs.width + left + right
          ∨ cs.height + top + bottom < 1 ∨ 32767 < cs.height + top + bottom
          ∨ -top ≥ cs.height + bottom ∨ -left ≥ cs.width + right)) ∧
    (∀ cs2, (DP_canvas_state_handle cs
        { contextId := ctx, body := MsgBody.canvasResize top right bottom left }).1
      = HandleResult.persisted cs2 →
      cs2.width = cs.width + left + right ∧ cs2.height = cs.height + top + bottom ∧
      cs2.backgroundTile = cs.backgroundTile) := by
  constructor
  · cases hr : DP_transient_canvas_state_resize cs ctx top right bottom left with
    | none =>
      simp only [DP_canvas_state_handle, handle_canvas_resize, hr, true_iff]
      exact (resize_none_iff cs ctx top right bottom left).mp hr
    | some tcs =>
      simp only [DP_canvas_state_handle, handle_canvas_resize, hr, reduceCtorEq, false_iff]
      intro hR
      have hnone := (resize_none_iff cs ctx top right bottom left).mpr hR
      rw [hr] at hnone
      exact Option.noConfusion hnone
  · intro cs2 h
    cases hr : DP_transient_canvas_state_resize cs ctx top right bottom left with
    | none =>
      rw [DP_canvas_state_handle] at h
      simp only [handle_canvas_resize, hr, reduceCtorEq] at h
    | some tcs =>
      rw [DP_canvas_state_handle] at h
      simp only [handle_canvas_resize, hr, HandleResult.persisted.injEq] at h
      subst h
      exact resize_some_fields cs ctx top right bottom left tcs hr

/-- C2 witness: resizing a 100 by 100 canvas by (1, 2, 3, 4) succeeds with
the new dimensions 106 by 104 and the background retained. -/
theorem canvas_resize_bounds_and_background_witness :
    ((DP_canvas_state_handle c2State
        { contextId := 1, body := MsgBody.canvasResize 1 2 3 4 }).1
      = HandleResult.persisted { c2State with width := 106, height := 104 }) ∧
    (({ c2State with width := 106, height := 104 } : CanvasState).width = c2State.width + 4 + 2 ∧
     ({ c2State with width := 106, height := 104 } : CanvasState).height = c2State.height + 1 + 3 ∧
     ({ c2State with width := 106, height := 104 } : CanvasState).backgroundTile = c2State.backgroundTile) :=
  ⟨by decide,
   (canvas_resize_bounds_and_background c2State 1 1 2 3 4).2
     { c2State with width := 106, height := 104 } (by decide)⟩

/-- C3: handling FillRect fails whenever the blend mode is unknown, whenever
it is not brush-compatible, whenever the rectangle clipped to the canvas
bounds (left = max(x,0), top = max(y,0), right = min(x+w, width),
bottom = min(y+h, height)) is empty, and in particular whenever the
requested rectangle lies completely outside the canvas. -/
theorem fill_rect_failure_conditions (cs : CanvasState)
    (ctx layerId blendMode x y width height : Int) (color : Nat) :
    (DP_blend_mode_exists blendMode = false →
      (DP_canvas_state_handle cs
        { contextId := ctx, body := MsgBody.fillRect layerId blendMode x y width height color }).1
        = HandleResult.fail) ∧
    (DP_blend_mode_valid_for_brush blendMode = false →
      (DP_canvas_state_handle cs
        { contextId := ctx, body := MsgBody.fillRect layerId blendMode x y width height color }).1
        = HandleResult.fail) ∧
    ((max x 0 ≥ min (x + width) cs.width ∨ max y 0 ≥ min (y + height) cs.height) →
      (DP_canvas_state_handle cs
        { contextId := ctx, body := MsgBody.fillRect layerId blendMode x y width height color }).1
        = HandleResult.fail) ∧
    ((x ≥ cs.width ∨ y ≥ cs.height ∨ x + width ≤ 0 ∨ y + height ≤ 0) →
      (DP_canvas_state_handle cs
        { contextId := ctx, body := MsgBody.fillRect layerId blendMode x y width height color }).1
        = HandleResult.fail) := by
  simp only [DP_canvas_state_handle, handle_fill_rect]
  refine ⟨?_, ?_, ?_, ?_⟩
  · intro h
    rw [if_pos h]
  · intro h
    by_cases he : DP_blend_mode_exists blendMode = false
    · rw [if_pos he]
    · rw [if_neg he]
      rw [if_pos h]
  · intro h
    by_cases he : DP_blend_mode_exists blendMode = false
    · rw [if_pos he]
    · rw [if_neg he]
      by_cases hv : DP_blend_mode_valid_for_brush blendMode = false
      · rw [if_pos hv]
      · rw [if_neg hv]
        rw [if_pos h]
  · intro h
    have hempty : max x 0 ≥ min (x + width) cs.width ∨ max y 0 ≥ min (y + height) cs.height := by
      rcases h with h | h | h | h
      · left
        have : min (x + width) cs.width ≤ cs.width := min_le_right _ _
        have : x ≤ max x 0 := le_max_left _ _
        omega
      · right
        have : min (y + height) cs.height ≤ cs.height := min_le_right _ _
        have : y ≤ max y 0 := le_max_left _ _
        omega
      · left
        have : min (x + width) cs.width ≤ x + width := min_le_left _ _
        have : (0 : Int) ≤ max x 0 := le_max_right _ _
        omega
      · right
        have : min (y + height) cs.height ≤ y + height := min_le_left _ _
        have : (0 : Int) ≤ max y 0 := le_max_right _ _
        omega
    by_cases he : DP_blend_mode_exists blendMode = false
    · rw [if_pos he]
    · rw [if_neg he]
      by_cases hv : DP_blend_mode_valid_for_brush blendMode = false
      · rw [if_pos hv]
      · rw [if_neg hv]
        rw [if_pos hempty]

/-- C3 witness: a FillRect whose rectangle starts beyond the right edge of a
100 by 100 canvas fails. -/
theorem fill_rect_failure_conditions_witness :
    ((200 : Int) ≥ c2State.width ∨ (0 : Int) ≥ c2State.height
      ∨ (200 : Int) + 10 ≤ 0 ∨ (0 : Int) + 10 ≤ 0) ∧
    (DP_canvas_state_handle c2State
      { contextId := 1, body := MsgBody.fillRect 1 1 200 0 10 10 0 }).1 = HandleResult.fail :=
  ⟨by decide,
   (fill_rect_failure_conditions c2State 1 1 1 200 0 10 10 0).2.2.2 (by decide)⟩

/-- C4: handling RegionMove fails whenever the source rectangle width or
height is not positive, and fails whenever the area of the destination quad
bounding rectangle exceeds (canvas_width + 1) * (canvas_height + 1); for a
canvas satisfying the dimension invariant 0..32767 the 64-bit computation of
that product equals the exact integer product, so the guard comparison does
not overflow. -/
theorem region_move_guards (cs : CanvasState) (ctx layerId srcX srcY srcWidth srcHeight : Int)
    (dstQuad : DP_Quad) (mask : Option Payload)
    (hw1 : 0 ≤ cs.width) (hw2 : cs.width ≤ 32767)
    (hh1 : 0 ≤ cs.height) (hh2 : cs.height ≤ 32767) :
    ((srcWidth ≤ 0 ∨ srcHeight ≤ 0) →
      (DP_canvas_state_handle cs
        { contextId := ctx, body := MsgBody.regionMove layerId srcX srcY srcWidth srcHeight dstQuad mask }).1
        = HandleResult.fail) ∧
    (DP_rect_size (DP_quad_bounds dstQuad) > (cs.width + 1) * (cs.height + 1) →
      (DP_canvas_state_handle cs
        { contextId := ctx, body := MsgBody.regionMove layerId srcX srcY srcWidth srcHeight dstQuad mask }).1
        = HandleResult.fail) ∧
    int64wrap ((cs.width + 1) * (cs.height + 1)) = (cs.width + 1) * (cs.height + 1) := by
  have hwrap : int64wrap ((cs.width + 1) * (cs.height + 1)) = (cs.width + 1) * (cs.height + 1) := by
    have h1 : 0 < (cs.width + 1) * (cs.height + 1) := mul_pos (by omega) (by omega)
    have h2 : (cs.width + 1) * (cs.height + 1) ≤ 32768 * 32768 :=
      mul_le_mul (by omega) (by omega) (by omega) (by norm_num)
    unfold int64wrap
    norm_num
    omega
  refine ⟨?_, ?_, hwrap⟩
  · intro h
    simp only [DP_canvas_state_handle, handle_region_move]
    rw [if_pos h]
  · intro h
    simp only [DP_canvas_state_handle, handle_region_move]
    by_cases hs : srcWidth ≤ 0 ∨ srcHeight ≤ 0
    · rw [if_pos hs]
    · rw [if_neg hs]
      cases hm : region_move_decode_mask mask with
      | none => simp only [hm]
      | some m =>
        simp only [hm]
        rw [hwrap, if_pos h]

/-- C4 witness: a RegionMove with an empty source selection (width 0) on a
100 by 100 canvas fails. -/
theorem region_move_guards_witness :
    ((0 : Int) ≤ c2State.width ∧ c2State.width ≤ 32767 ∧ (0 : Int) ≤ c2State.height
      ∧ c2State.height ≤ 32767 ∧ ((0 : Int) ≤ 0 ∨ (5 : Int) ≤ 0)) ∧
    (DP_canvas_state_handle c2State
      { contextId := 1,
        body := MsgBody.regionMove 1 0 0 0 5 ⟨0, 0, 1, 0, 1, 1, 0, 1⟩ none }).1
      = HandleResult.fail :=
  ⟨by decide,
   (region_move_guards c2State 1 1 0 0 0 5 ⟨0, 0, 1, 0, 1, 1, 0, 1⟩ none
      (by decide) (by decide) (by decide) (by decide)).1 (by decide)⟩

theorem handle_result_shape (cs : CanvasState) (m : Msg) :
    (∃ c, DP_canvas_state_handle cs m = (HandleResult.persisted c, [TEv.alloc, TEv.persistT])) ∨
    DP_canvas_state_handle cs m = (HandleResult.fail, []) ∨
    DP_canvas_state_handle cs m = (HandleResult.fail, [TEv.alloc, TEv.decrefT]) ∨
    DP_canvas_state_handle cs m = (HandleResult.same, []) := by
  obtain ⟨cid, body⟩ := m
  cases body
  all_goals
    simp only [DP_canvas_state_handle, handle_canvas_resize, handle_layer_create,
      handle_layer_attr, handle_layer_order, handle_layer_retitle, handle_layer_delete,
      handle_layer_visibility, handle_put_image, handle_fill_rect, handle_region_move,
      handle_put_tile, handle_canvas_background, handle_pen_up, handle_draw_dabs]
  all_goals repeat' split
  all_goals
    first
      | exact Or.inl ⟨_, rfl⟩
      | exact Or.inr (Or.inl rfl)
      | exact Or.inr (Or.inr (Or.inl rfl))
      | exact Or.inr (Or.inr (Or.inr rfl))
      | simp

/-- C1 (amended): for every canvas state and message, DP_canvas_state_handle
returns a freshly persisted new snapshot, a refcount-incremented reference
to the input snapshot itself (the no-op fast paths of PenUp and zero-dab
draw-dabs), or a failure; a failing handler never persists and releases
every transient canvas state it allocated (the trace is balanced), a no-op
touches no transient at all, and a successful handler allocates exactly one
transient and persists it. The input snapshot itself is a value the handler
only reads: every mutation in the embedding happens on the transient
allocated by the trace events. -/
theorem handle_persist_same_or_fail (cs : CanvasState) (m : Msg) :
    ((DP_canvas_state_handle cs m).1 = HandleResult.fail →
      (DP_canvas_state_handle cs m).2.count TEv.persistT = 0 ∧
      (DP_canvas_state_handle cs m).2.count TEv.alloc
        = (DP_canvas_state_handle cs m).2.count TEv.decrefT) ∧
    (∀ c, (DP_canvas_state_handle cs m).1 = HandleResult.persisted c →
      (DP_canvas_state_handle cs m).2 = [TEv.alloc, TEv.persistT]) ∧
    ((DP_canvas_state_handle cs m).1 = HandleResult.same →
      (DP_canvas_state_handle cs m).2 = []) := by
  rcases handle_result_shape cs m with ⟨c, h⟩ | h | h | h <;>
    rw [h] <;>
    refine ⟨?_, ?_, ?_⟩ <;>
    simp

/-- C1 witness: a FillRect with the unknown blend mode 255 fails before any
transient is created; the trace is empty, hence balanced. -/
theorem handle_persist_same_or_fail_witness :
    ((DP_canvas_state_handle DP_canvas_state_new c1FailMsg).1 = HandleResult.fail) ∧
    ((DP_canvas_state_handle DP_canvas_state_new c1FailMsg).2.count TEv.persistT = 0 ∧
     (DP_canvas_state_handle DP_canvas_state_new c1FailMsg).2.count TEv.alloc
       = (DP_canvas_state_handle DP_canvas_state_new c1FailMsg).2.count TEv.decrefT) :=
  ⟨by decide, (handle_persist_same_or_fail DP_canvas_state_new c1FailMsg).1 (by decide)⟩

theorem opacity_byte_eq (c : Nat) : (c &&& 0xff000000) >>> 24 = (c >>> 24) &&& 0xff := by
  apply Nat.eq_of_testBit_eq
  intro i
  simp only [Nat.testBit_shiftRight, Nat.testBit_land]
  rcases Nat.lt_or_ge i 8 with h | h
  · have h1 : Nat.testBit 0xff i = true := by interval_cases i <;> decide
    have h2 : Nat.testBit 0xff000000 (24 + i) = true := by interval_cases i <;> decide
    simp [h1, h2]
  · have h1 : Nat.testBit 0xff i = false :=
      Nat.testBit_lt_two_pow (lt_of_lt_of_le (by norm_num : (0xff : Nat) < 2 ^ 8)
        (Nat.pow_le_pow_right (by norm_num) h))
    have h2 : Nat.testBit 0xff000000 (24 + i) = false :=
      Nat.testBit_lt_two_pow (lt_of_lt_of_le (by norm_num : (0xff000000 : Nat) < 2 ^ 32)
        (Nat.pow_le_pow_right (by norm_num) (by omega)))
    simp [h1, h2]

theorem getLayer_cons_pos (l : Layer) (rest : List Layer) (layerId : Int)
    (h : (l.props.id == layerId) = true) : getLayer (l :: rest) layerId = some l := by
  simp [getLayer, List.find?_cons, h]

theorem getLayer_cons_neg (l : Layer) (rest : List Layer) (layerId : Int)
    (h : (l.props.id == layerId) = false) :
    getLayer (l :: rest) layerId = getLayer rest layerId := by
  simp [getLayer, List.find?_cons, h]

theorem subFind_cons_pos (s : SubLayer) (rest : List SubLayer) (sid : Int)
    (h : (s.props.id == sid) = true) :
    List.find? (fun t => t.props.id == sid) (s :: rest) = some s := by
  simp [List.find?_cons, h]

theorem subFind_cons_neg (s : SubLayer) (rest : List SubLayer) (sid : Int)
    (h : (s.props.id == sid) = false) :
    List.find? (fun t => t.props.id == sid) (s :: rest)
      = List.find? (fun t => t.props.id == sid) rest := by
  simp [List.find?_cons, h]

theorem modifyLayer_spec (f : Layer → Layer) (layerId : Int)
    (hid : ∀ l, (f l).props.id = l.props.id) :
    ∀ (ll : List Layer) (l0 : Layer), getLayer ll layerId = some l0 →
      ∃ ll2, modifyLayer f layerId ll = some ll2 ∧ getLayer ll2 layerId = some (f l0) := by
  intro ll
  induction ll with
  | nil =>
    intro l0 h
    simp [getLayer] at h
  | cons l rest ih =>
    intro l0 h
    cases hl : l.props.id == layerId with
    | true =>
      have hl0 : l0 = l := by
        rw [getLayer_cons_pos l rest layerId hl] at h
        exact (Option.some.injEq _ _ ▸ h).symm
      subst hl0
      refine ⟨f l0 :: rest, ?_, ?_⟩
      · simp [modifyLayer, hl]
      · exact getLayer_cons_pos (f l0) rest layerId (by rw [hid l0]; exact hl)
    | false =>
      rw [getLayer_cons_neg l rest layerId hl] at h
      obtain ⟨ll2, h1, h2⟩ := ih l0 h
      refine ⟨l :: ll2, ?_, ?_⟩
      · simp [modifyLayer, hl, h1]
      · rw [getLayer_cons_neg l ll2 layerId hl]
        exact h2

theorem applySub_spec (sid sblend sopac : Int) (params : PaintParams) (subs : List SubLayer) :
    ∃ s prev,
      (applySub sid sblend sopac params subs).find? (fun t => t.props.id == sid) = some s
      ∧ s.props.id = sid ∧ s.props.opacity = sopac ∧ s.props.blendMode = sblend
      ∧ s.content = ContentOps.drawDabs prev params := by
  induction subs with
  | nil =>
    refine ⟨{ props := { id := sid, title := "", opacity := sopac, blendMode := sblend, visible := true, censored := false, fixed := false }, content := ContentOps.drawDabs (ContentOps.base 0 0 none) params }, ContentOps.base 0 0 none, ?_, rfl, rfl, rfl, rfl⟩
    rw [applySub]
    exact subFind_cons_pos _ [] sid (by simp)
  | cons s rest ih =>
    cases hs : s.props.id == sid with
    | true =>
      refine ⟨{ props := { s.props with opacity := sopac, blendMode := sblend }, content := ContentOps.drawDabs s.content params }, s.content, ?_, eq_of_beq hs, rfl, rfl, rfl⟩
      rw [applySub, if_pos hs]
      exact subFind_cons_pos _ rest sid hs
    | false =>
      obtain ⟨s', prev, h1, h2, h3, h4, h5⟩ := ih
      refine ⟨s', prev, ?_, h2, h3, h4, h5⟩
      rw [applySub, if_neg (by simp [hs]), subFind_cons_neg s _ sid hs]
      exact h1


/-- C6 counterexample: an indirect DrawDabsClassic from context id 0 with
one dab on a canvas holding layer 1. The handler computes sublayer_id =
context_id = 0, and 0 is the very value its own direct branch uses to mean
no sublayer: the persisted layer has no sublayer at all (in particular none
whose id equals the context id) and the dabs composite directly into the
layer content with blend mode NORMAL, so the claim as stated is false at
this input. -/
theorem draw_dabs_indirect_zero_context_counterexample :
    (match (handle_draw_dabs c9State DabsType.classic 0 1 1 0 0 0x80ff0000 true [5]).1 with
     | HandleResult.persisted cs2 =>
       match getLayer cs2.layers 1 with
       | some l2 =>
         decide (l2.sublayers = []
           ∧ l2.content = ContentOps.drawDabs (simpleLayer 1).content { msgType := DabsType.classic, contextId := 0, originX := 0, originY := 0, color := 0x80ff0000, blendMode := DP_BLEND_MODE_NORMAL, dabCount := 1, dabs := [5] })
       | none => false
     | _ => false) = true := by
  decide

/-- C6 (amended): a draw-dabs message with at least one dab and a known,
brush-compatible blend mode, on a canvas holding the addressed layer: with
the indirect flag set and a nonzero context id, the dabs land in a sublayer
of that layer whose id equals the context id, whose opacity is
(color >> 24) & 0xff and whose blend mode is the requested one, while the
dab parameters composite with blend mode NORMAL; with the indirect flag set
and context id 0, the computed sublayer id 0 is the no-sublayer marker, so
no sublayer is touched and the dabs composite directly into the layer
content, still with blend mode NORMAL; without the indirect flag, no
sublayer is touched (sublayer id 0) and the dabs composite directly with
the requested blend mode. -/
theorem draw_dabs_modes (cs : CanvasState) (msgType : DabsType)
    (ctx layerId blendMode originX originY : Int) (color : Nat) (indirect : Bool)
    (dabs : List Nat) (l0 : Layer)
    (hbe : DP_blend_mode_exists blendMode = true)
    (hbv : DP_blend_mode_valid_for_brush blendMode = true)
    (hd : dabs ≠ [])
    (hl : getLayer cs.layers layerId = some l0) :
    ∃ cs2 l2,
      (handle_draw_dabs cs msgType ctx layerId blendMode originX originY color indirect dabs).1
        = HandleResult.persisted cs2
      ∧ getLayer cs2.layers layerId = some l2
      ∧ (indirect = true → ctx ≠ 0 →
          ∃ s prev, findSub l2 ctx = some s
            ∧ s.props.id = ctx
            ∧ s.props.opacity = Int.ofNat ((color >>> 24) &&& 0xff)
            ∧ s.props.blendMode = blendMode
            ∧ s.content = ContentOps.drawDabs prev
                { msgType := msgType, contextId := ctx, originX := originX, originY := originY, color := color, blendMode := DP_BLEND_MODE_NORMAL, dabCount := dabs.length, dabs := dabs })
      ∧ (indirect = true → ctx = 0 →
          l2.sublayers = l0.sublayers
          ∧ l2.content = ContentOps.drawDabs l0.content
              { msgType := msgType, contextId := ctx, originX := originX, originY := originY, color := color, blendMode := DP_BLEND_MODE_NORMAL, dabCount := dabs.length, dabs := dabs })
      ∧ (indirect = false →
          l2.sublayers = l0.sublayers
          ∧ l2.content = ContentOps.drawDabs l0.content
              { msgType := msgType, contextId := ctx, originX := originX, originY := originY, color := color, blendMode := blendMode, dabCount := dabs.length, dabs := dabs }) := by
  have hlen : ¬dabs.length < 1 := by
    cases dabs with
    | nil => exact absurd rfl hd
    | cons a t => simp
  cases indirect with
  | true =>
    have hid : ∀ l, (recordDabs ctx blendMode (Int.ofNat ((color &&& 0xff000000) >>> 24))
        { msgType := msgType, contextId := ctx, originX := originX, originY := originY, color := color, blendMode := DP_BLEND_MODE_NORMAL, dabCount := dabs.length, dabs := dabs } l).props.id = l.props.id := by
      intro l
      unfold recordDabs
      split <;> rfl
    obtain ⟨ll2, hm, hg⟩ := modifyLayer_spec _ layerId hid cs.layers l0 hl
    refine ⟨{ cs with layers := ll2 }, _, ?_, hg, ?_, ?_, ?_⟩
    · try simp only [Int.ofNat_eq_natCast] at hm
      simp [handle_draw_dabs, draw_dabs_sublayer_params, DP_transient_layer_list_draw_dabs, hbe, hbv, hlen, hm]
    · intro _ hc
      have hc0 : (ctx == 0) = false := beq_eq_false_iff_ne.mpr hc
      rw [recordDabs, if_neg (by simp [hc0])]
      obtain ⟨s, prev, h1, h2, h3, h4, h5⟩ :=
        applySub_spec ctx blendMode (Int.ofNat ((color &&& 0xff000000) >>> 24))
          { msgType := msgType, contextId := ctx, originX := originX, originY := originY, color := color, blendMode := DP_BLEND_MODE_NORMAL, dabCount := dabs.length, dabs := dabs } l0.sublayers
      refine ⟨s, prev, h1, h2, ?_, h4, h5⟩
      rw [h3, opacity_byte_eq]
    · intro _ hc
      have hc0 : (ctx == 0) = true := beq_iff_eq.mpr hc
      rw [recordDabs, if_pos hc0]
      exact ⟨rfl, rfl⟩
    · intro hf
      exact absurd hf (by simp)
  | false =>
    have hid : ∀ l, (recordDabs 0 (-1) (-1)
        { msgType := msgType, contextId := ctx, originX := originX, originY := originY, color := color, blendMode := blendMode, dabCount := dabs.length, dabs := dabs } l).props.id = l.props.id := by
      intro l
      unfold recordDabs
      split <;> rfl
    obtain ⟨ll2, hm, hg⟩ := modifyLayer_spec _ layerId hid cs.layers l0 hl
    refine ⟨{ cs with layers := ll2 }, _, ?_, hg, ?_, ?_, ?_⟩
    · simp [handle_draw_dabs, draw_dabs_sublayer_params, DP_transient_layer_list_draw_dabs, hbe, hbv, hlen, hm]
    · intro hf
      exact absurd hf (by simp)
    · intro hf
      exact absurd hf (by simp)
    · intro _
      rw [recordDabs, if_pos (by decide)]
      exact ⟨rfl, rfl⟩

/-- C6 witness: an indirect DrawDabsClassic by context 7 with color
0x80ff0000 and blend mode NORMAL on a canvas holding layer 1; the amended
theorem applied there yields the sublayer with id 7, opacity 0x80 and the
requested blend mode, with the dabs composited with NORMAL. -/
theorem draw_dabs_modes_witness :
    (DP_blend_mode_exists 1 = true ∧ DP_blend_mode_valid_for_brush 1 = true
      ∧ ([5] : List Nat) ≠ [] ∧ getLayer c9State.layers 1 = some (simpleLayer 1)) ∧
    (∃ cs2 l2,
      (handle_draw_dabs c9State DabsType.classic 7 1 1 0 0 0x80ff0000 true [5]).1
        = HandleResult.persisted cs2
      ∧ getLayer cs2.layers 1 = some l2
      ∧ (true = true → (7 : Int) ≠ 0 → ∃ s prev, findSub l2 7 = some s ∧ s.props.id = 7
          ∧ s.props.opacity = Int.ofNat ((0x80ff0000 >>> 24) &&& 0xff)
          ∧ s.props.blendMode = 1
          ∧ s.content = ContentOps.drawDabs prev { msgType := DabsType.classic, contextId := 7, originX := 0, originY := 0, color := 0x80ff0000, blendMode := DP_BLEND_MODE_NORMAL, dabCount := [5].length, dabs := [5] })
      ∧ (true = true → (7 : Int) = 0 → l2.sublayers = (simpleLayer 1).sublayers
          ∧ l2.content = ContentOps.drawDabs (simpleLayer 1).content { msgType := DabsType.classic, contextId := 7, originX := 0, originY := 0, color := 0x80ff0000, blendMode := DP_BLEND_MODE_NORMAL, dabCount := [5].length, dabs := [5] })
      ∧ (true = false → l2.sublayers = (simpleLayer 1).sublayers
          ∧ l2.content = ContentOps.drawDabs (simpleLayer 1).content { msgType := DabsType.classic, contextId := 7, originX := 0, originY := 0, color := 0x80ff0000, blendMode := 1, dabCount := [5].length, dabs := [5] })) :=
  ⟨⟨by decide, by decide, by decide, by decide⟩,
   draw_dabs_modes c9State DabsType.classic 7 1 1 0 0 0x80ff0000 true [5] (simpleLayer 1)
     (by decide) (by decide) (by decide) (by decide)⟩
